import Mathlib

/-!
Shallow embedding of savecb.c, a GTK clipboard-saving utility.

The program is an event-driven callback chain: request clipboard targets,
pick one (image preferred over text), fetch its content, classify it, show
a save dialog and write the file.  The toolkit (clipboard contents, dialog
answers, file-write and image-encode results) is modelled as an explicit
environment `Env`; each callback becomes a pure function from the
environment to the list of observable events it performs, in order.
-/

/-- Embeds g_str_has_prefix: does s start with pre?  Stated over the
character lists so that it evaluates by kernel reduction. -/
def g_str_starts_with (s pre : String) : Bool :=
  pre.data.isPrefixOf s.data

/-- Embeds g_str_has_suffix: does s end with suf? -/
def g_str_has_suffix (s suf : String) : Bool :=
  suf.data.isSuffixOf s.data

/-- Result of running a GtkFileChooserNative dialog: the user accepts
(`gtk_native_dialog_run` returns GTK_RESPONSE_ACCEPT, and
`gtk_file_chooser_get_filename` yields an optional filename) or dismisses
the dialog in any other way. -/
inductive DialogResult where
  | accept (filename : Option String)
  | cancel
  deriving DecidableEq

/-- Which of the two save dialogs is involved. -/
inductive DialogKind where
  | text
  | image
  deriving DecidableEq

/-- Decoded image payload, as GdkPixbuf presents it: dimensions and a pixel
buffer. The program never inspects it; it only hands it to the encoder. -/
structure Pixbuf where
  width : Nat
  height : Nat
  pixels : List Nat
  deriving DecidableEq

/-- Abstraction of GtkSelectionData as the content callback inspects it:
its length (`gtk_selection_data_get_length`, a gint that can be negative),
its decoding as an image (`gtk_selection_data_get_pixbuf`, NULL possible)
and its decoding as text (`gtk_selection_data_get_text`, NULL possible). -/
structure SelectionData where
  length : Int
  pixbuf : Option Pixbuf
  text : Option String

/-- Observable events of one run, in program order.  Each `msg` event
corresponds to exactly one g_print / g_printerr call site in savecb.c;
`event_stdout` / `event_stderr` below give the exact bytes printed. -/
inductive Event where
  | showDialog (k : DialogKind)
  | writeFileCall (path contents : String) (ok : Bool)
  | pixbufSaveCall (path format : String) (ok : Bool)
  | msgSaved (k : DialogKind) (path : String)
  | msgSaveError (k : DialogKind) (err : String)
  | msgCanceled (k : DialogKind)
  | msgImageDetected
  | msgTextDetected
  | msgUnsupported
  | msgFoundTargetsHeader
  | msgSeparator
  | msgTargetName (s : String)
  | msgNewline
  | mainQuit
  deriving DecidableEq

/-- The toolkit environment a run interacts with: the advertised target
names, the selection data returned when a target is requested, the answer
of each dialog, and the results of `g_file_set_contents` and
`gdk_pixbuf_save` (`none` means success, `some err` carries the GError
message). -/
structure Env where
  targets : List String
  content : String → SelectionData
  textDialog : DialogResult
  imageDialog : DialogResult
  g_file_set_contents : String → String → Option String
  gdk_pixbuf_save : Pixbuf → String → String → Option String

/-- Exact bytes each event writes to standard output. -/
def event_stdout : Event → String
  | Event.msgSaved DialogKind.text p => "Text successfully saved to: " ++ p ++ "\n"
  | Event.msgSaved DialogKind.image p => "Image successfully saved to: " ++ p ++ "\n"
  | Event.msgCanceled DialogKind.text => "Text save canceled.\n"
  | Event.msgCanceled DialogKind.image => "Image save canceled.\n"
  | Event.msgImageDetected => "Image data detected. Opening save dialog...\n"
  | Event.msgTextDetected => "Text data detected. Opening save dialog...\n"
  | Event.msgUnsupported => "Clipboard is empty or contains an unsupported format.\n"
  | Event.msgFoundTargetsHeader => "Found targets: "
  | Event.msgSeparator => ", "
  | Event.msgTargetName s => s
  | Event.msgNewline => "\n"
  | _ => ""

/-- Exact bytes each event writes to standard error. -/
def event_stderr : Event → String
  | Event.msgSaveError DialogKind.text e => "Error saving text file: " ++ e ++ "\n"
  | Event.msgSaveError DialogKind.image e => "Error saving image: " ++ e ++ "\n"
  | _ => ""

/-- Everything a trace prints on standard output, concatenated. -/
def stdoutOf : List Event → String
  | [] => ""
  | e :: tr => event_stdout e ++ stdoutOf tr

/-- Everything a trace prints on standard error, concatenated. -/
def stderrOf : List Event → String
  | [] => ""
  | e :: tr => event_stderr e ++ stderrOf tr

/-- The successful file writes of a trace, as (path, contents) pairs. -/
def writes (tr : List Event) : List (String × String) :=
  tr.filterMap fun e =>
    match e with
    | Event.writeFileCall p c true => some (p, c)
    | _ => none

/-- Every `g_file_set_contents` call of a trace, successful or not. -/
def write_attempts (tr : List Event) : List (String × String) :=
  tr.filterMap fun e =>
    match e with
    | Event.writeFileCall p c _ => some (p, c)
    | _ => none

/-- Every `gdk_pixbuf_save` call of a trace, as (path, format) pairs. -/
def pixbuf_save_calls (tr : List Event) : List (String × String) :=
  tr.filterMap fun e =>
    match e with
    | Event.pixbufSaveCall p f _ => some (p, f)
    | _ => none

/-- Replay the successful file writes of a trace over a filesystem, modelled
as a partial map from paths to file contents; a write replaces whatever was
at the path before. -/
def apply_event (fs : String → Option String) : Event → String → Option String
  | Event.writeFileCall p c true => fun q => if q = p then some c else fs q
  | _ => fs

/-- Replay a whole trace over a filesystem, first event first. -/
def apply_trace (fs : String → Option String) : List Event → String → Option String
  | [] => fs
  | e :: tr => apply_trace (apply_event fs e) tr

/-- Embeds save_text (savecb.c lines 21-61): run the text save dialog; on
accept with a filename call g_file_set_contents and print the outcome; on
accept without a filename do nothing; otherwise print the cancel message;
always quit the main loop at the end. -/
def save_text (env : Env) (text : String) : List Event :=
  Event.showDialog DialogKind.text ::
    ((match env.textDialog with
      | DialogResult.accept (some filename) =>
          match env.g_file_set_contents filename text with
          | none =>
              [Event.writeFileCall filename text true,
               Event.msgSaved DialogKind.text filename]
          | some err =>
              [Event.writeFileCall filename text false,
               Event.msgSaveError DialogKind.text err]
      | DialogResult.accept none => []
      | DialogResult.cancel => [Event.msgCanceled DialogKind.text]) ++
     [Event.mainQuit])

/-- Embeds the format choice of save_image (savecb.c lines 98-101): png by
default, jpeg when the filename ends in .jpg or .jpeg. -/
def image_save_format (filename : String) : String :=
  if g_str_has_suffix filename ".jpg" || g_str_has_suffix filename ".jpeg" then "jpeg"
  else "png"

/-- Embeds save_image (savecb.c lines 67-117): run the image save dialog; on
accept with a filename pick the format from the extension, call
gdk_pixbuf_save and print the outcome; on accept without a filename do
nothing; otherwise print the cancel message; always quit the main loop. -/
def save_image (env : Env) (pixbuf : Pixbuf) : List Event :=
  Event.showDialog DialogKind.image ::
    ((match env.imageDialog with
      | DialogResult.accept (some filename) =>
          match env.gdk_pixbuf_save pixbuf filename (image_save_format filename) with
          | none =>
              [Event.pixbufSaveCall filename (image_save_format filename) true,
               Event.msgSaved DialogKind.image filename]
          | some err =>
              [Event.pixbufSaveCall filename (image_save_format filename) false,
               Event.msgSaveError DialogKind.image err]
      | DialogResult.accept none => []
      | DialogResult.cancel => [Event.msgCanceled DialogKind.image]) ++
     [Event.mainQuit])

/-- Embeds on_clipboard_received_content (savecb.c lines 120-144): a
zero-length selection is reported as empty/unsupported; else an image
decoding wins over a text decoding; neither means the same empty/unsupported
report. -/
def on_clipboard_received_content (env : Env) (selection_data : SelectionData) :
    List Event :=
  if selection_data.length = 0 then
    [Event.msgUnsupported, Event.mainQuit]
  else
    match selection_data.pixbuf with
    | some pixbuf => Event.msgImageDetected :: save_image env pixbuf
    | none =>
        match selection_data.text with
        | some text => Event.msgTextDetected :: save_text env text
        | none => [Event.msgUnsupported, Event.mainQuit]

/-- First loop of on_clipboard_received_targets (savecb.c lines 151-157):
the first target whose name starts with image/. -/
def find_image_target : List String → Option String
  | [] => none
  | t :: ts => if g_str_starts_with t "image/" then some t else find_image_target ts

/-- Second loop of on_clipboard_received_targets (savecb.c lines 160-168):
the first target named exactly text/plain or UTF8_STRING. -/
def find_text_target : List String → Option String
  | [] => none
  | t :: ts =>
      if t = "text/plain" || t = "UTF8_STRING" then some t
      else find_text_target ts

/-- The target the two loops leave in target_atom: an image target if one
exists, else a text target if one exists, else none. -/
def select_target (targets : List String) : Option String :=
  match find_image_target targets with
  | some t => some t
  | none => find_text_target targets

/-- The printing loop of the no-selection branch (savecb.c lines 177-183):
a comma-space separator before every name except the first (the loop tests
i > 0), then the name itself. -/
def print_found_targets : List String → Nat → List Event
  | [], _ => []
  | t :: ts, i =>
      (if 0 < i then [Event.msgSeparator] else []) ++
        (Event.msgTargetName t :: print_found_targets ts (i + 1))

/-- Embeds on_clipboard_received_targets (savecb.c lines 147-187): with a
selected target, request its contents (the content callback fires next);
with none, print the unsupported message, list every offered target and
quit. -/
def on_clipboard_received_targets (env : Env) : List Event :=
  match select_target env.targets with
  | some t => on_clipboard_received_content env (env.content t)
  | none =>
      [Event.msgUnsupported, Event.msgFoundTargetsHeader] ++
        print_found_targets env.targets 0 ++
        [Event.msgNewline, Event.mainQuit]

/-- Outcome of a whole run: the event trace and the process exit code. -/
structure RunResult where
  trace : List Event
  exitCode : Nat

/-- Embeds main (savecb.c lines 190-204): request the target list, run the
event loop until some callback quits it, return 0. -/
def run (env : Env) : RunResult :=
  { trace := on_clipboard_received_targets env, exitCode := 0 }

/-- Events that show a save dialog. -/
def is_dialog : Event → Bool
  | Event.showDialog _ => true
  | _ => false

/-- Events that quit the GTK main loop. -/
def is_quit : Event → Bool
  | Event.mainQuit => true
  | _ => false

/-- The empty-or-unsupported determination message. -/
def is_unsupported_report : Event → Bool
  | Event.msgUnsupported => true
  | _ => false

/-- Terminal outcome messages: save success, save error, cancellation, or
the empty-or-unsupported report. -/
def is_terminal_msg : Event → Bool
  | Event.msgSaved _ _ => true
  | Event.msgSaveError _ _ => true
  | Event.msgCanceled _ => true
  | Event.msgUnsupported => true
  | _ => false

/-- The image-target loop is a first-match search. -/
theorem find_image_target_eq_find (ts : List String) :
    find_image_target ts = ts.find? (fun t => g_str_starts_with t "image/") := by
  induction ts with
  | nil => rfl
  | cons t ts ih =>
      by_cases h : g_str_starts_with t "image/" = true
      · simp [find_image_target, List.find?, h]
      · simp [find_image_target, List.find?, h, ih]

/-- The text-target loop is a first-match search. -/
theorem find_text_target_eq_find (ts : List String) :
    find_text_target ts =
      ts.find? (fun t => t == "text/plain" || t == "UTF8_STRING") := by
  induction ts with
  | nil => rfl
  | cons t ts ih =>
      by_cases h : (t = "text/plain" || t = "UTF8_STRING") = true
      · simp [find_text_target, List.find?, h]
        simp only [Bool.or_eq_true, decide_eq_true_eq] at h
        rcases h with h | h <;> simp [h]
      · simp [find_text_target, h]
        simp only [Bool.or_eq_true, decide_eq_true_eq, not_or] at h
        have hb : (t == "text/plain" || t == "UTF8_STRING") = false := by
          simp [h.1, h.2]
        simp [List.find?, hb, ih]

/-- Claim C1: for every target list the negotiation selects the first
identifier with prefix image/ when one exists; otherwise the first
identifier equal to text/plain or UTF8_STRING when one exists, and nothing
when neither exists; in particular an image target is chosen whenever one
is present. -/
theorem claim_C1_target_selection (ts : List String) :
    ((∃ t ∈ ts, g_str_starts_with t "image/" = true) →
        select_target ts = ts.find? (fun t => g_str_starts_with t "image/") ∧
        ∃ t, select_target ts = some t ∧ g_str_starts_with t "image/" = true) ∧
      ((¬ ∃ t ∈ ts, g_str_starts_with t "image/" = true) →
        select_target ts =
          ts.find? (fun t => t == "text/plain" || t == "UTF8_STRING")) := by
  constructor
  · intro hex
    have hsome : (ts.find? (fun t => g_str_starts_with t "image/")).isSome := by
      rw [List.find?_isSome]
      simpa using hex
    rcases Option.isSome_iff_exists.mp hsome with ⟨t, ht⟩
    have hsel : select_target ts = some t := by
      unfold select_target
      rw [find_image_target_eq_find, ht]
    refine ⟨?_, t, hsel, ?_⟩
    · unfold select_target
      rw [find_image_target_eq_find, ht]
    · simpa using List.find?_some ht
  · intro hnone
    have hfind : ts.find? (fun t => g_str_starts_with t "image/") = none := by
      rw [List.find?_eq_none]
      intro t ht
      simp only [Bool.not_eq_true]
      by_contra hc
      exact hnone ⟨t, ht, by simpa using hc⟩
    unfold select_target
    rw [find_image_target_eq_find, hfind, find_text_target_eq_find]

/-- Claim C1 witness: concrete target lists with and without an image
entry. -/
theorem claim_C1_target_selection_witness :
    select_target ["foo", "image/png", "text/plain"] = some "image/png" ∧
      select_target ["foo", "text/plain", "UTF8_STRING"] = some "text/plain" := by
  constructor
  · have h := (claim_C1_target_selection ["foo", "image/png", "text/plain"]).1
      ⟨"image/png", by decide, by decide⟩
    rw [h.1]
    decide
  · have h := (claim_C1_target_selection ["foo", "text/plain", "UTF8_STRING"]).2
      (by decide)
    rw [h]
    decide

/-- Claim C9: the exit code is 0 on every terminal path; no environment
(hence no input or outcome, I/O and encode failures included) produces a
non-zero exit code. -/
theorem claim_C9_exit_code_zero (env : Env) : (run env).exitCode = 0 := rfl

/-- Appending the empty string on the left is the identity. -/
theorem str_empty_append (s : String) : "" ++ s = s := by
  apply String.ext
  simp [String.data_append]

/-- Appending the empty string on the right is the identity. -/
theorem str_append_empty (s : String) : s ++ "" = s := by
  apply String.ext
  simp [String.data_append]

/-- Claim C2: when the text save dialog is accepted with a non-null path
and the write succeeds, the one write of the run stores exactly the text
payload at that path, and replaying the trace over any filesystem (so also
one that already has a file there) leaves exactly the payload bytes at the
path. -/
theorem claim_C2_text_saved_verbatim (env : Env) (text p : String)
    (hd : env.textDialog = DialogResult.accept (some p))
    (hw : env.g_file_set_contents p text = none) :
    writes (save_text env text) = [(p, text)] ∧
      ∀ fs : String → Option String,
        apply_trace fs (save_text env text) p = some text := by
  unfold save_text
  simp only [hd, hw]
  constructor
  · rfl
  · intro fs
    simp [apply_trace, apply_event]

/-- Claim C2 witness: payload "hello\n" accepted at /tmp/out.txt lands
byte-for-byte, overwriting a filesystem that already has a file there. -/
theorem claim_C2_text_saved_verbatim_witness :
    writes
        (save_text
          { targets := ["text/plain"],
            content := fun _ => { length := 6, pixbuf := none, text := some "hello\n" },
            textDialog := DialogResult.accept (some "/tmp/out.txt"),
            imageDialog := DialogResult.cancel,
            g_file_set_contents := fun _ _ => none,
            gdk_pixbuf_save := fun _ _ _ => none }
          "hello\n") =
      [("/tmp/out.txt", "hello\n")] ∧
      apply_trace (fun _ => some "old contents")
        (save_text
          { targets := ["text/plain"],
            content := fun _ => { length := 6, pixbuf := none, text := some "hello\n" },
            textDialog := DialogResult.accept (some "/tmp/out.txt"),
            imageDialog := DialogResult.cancel,
            g_file_set_contents := fun _ _ => none,
            gdk_pixbuf_save := fun _ _ _ => none }
          "hello\n")
        "/tmp/out.txt" = some "hello\n" := by
  refine ⟨(claim_C2_text_saved_verbatim _ _ _ rfl rfl).1, ?_⟩
  exact (claim_C2_text_saved_verbatim _ _ _ rfl rfl).2 _

/-- Claim C3: when the image save dialog is accepted with a non-null path,
the encoder is invoked exactly once, on that path, with format jpeg exactly
when the path ends in .jpg or .jpeg and with format png for every other
path. -/
theorem claim_C3_image_format (env : Env) (pb : Pixbuf) (p : String)
    (hd : env.imageDialog = DialogResult.accept (some p)) :
    ∃ fmt, pixbuf_save_calls (save_image env pb) = [(p, fmt)] ∧
      (fmt = "jpeg" ↔
        (g_str_has_suffix p ".jpg" = true ∨ g_str_has_suffix p ".jpeg" = true)) ∧
      (fmt = "png" ↔
        ¬(g_str_has_suffix p ".jpg" = true ∨ g_str_has_suffix p ".jpeg" = true)) := by
  refine ⟨image_save_format p, ?_, ?_, ?_⟩
  · unfold save_image
    simp only [hd]
    cases henc : env.gdk_pixbuf_save pb p (image_save_format p) <;>
      simp [pixbuf_save_calls, henc]
  · unfold image_save_format
    cases hb : (g_str_has_suffix p ".jpg" || g_str_has_suffix p ".jpeg") <;>
      simp_all
  · unfold image_save_format
    cases hb : (g_str_has_suffix p ".jpg" || g_str_has_suffix p ".jpeg") <;>
      simp_all

/-- Claim C3 witness: an accepted path ending in .jpg yields one encoder
call with the jpeg format. -/
theorem claim_C3_image_format_witness :
    ∃ fmt,
      pixbuf_save_calls
          (save_image
            { targets := ["image/png"],
              content := fun _ => { length := 1, pixbuf := some ⟨1, 1, [0]⟩, text := none },
              textDialog := DialogResult.cancel,
              imageDialog := DialogResult.accept (some "photo.jpg"),
              g_file_set_contents := fun _ _ => none,
              gdk_pixbuf_save := fun _ _ _ => none }
            ⟨1, 1, [0]⟩) =
        [("photo.jpg", fmt)] ∧
      (fmt = "jpeg" ↔
        (g_str_has_suffix "photo.jpg" ".jpg" = true ∨
          g_str_has_suffix "photo.jpg" ".jpeg" = true)) ∧
      (fmt = "png" ↔
        ¬(g_str_has_suffix "photo.jpg" ".jpg" = true ∨
          g_str_has_suffix "photo.jpg" ".jpeg" = true)) :=
  claim_C3_image_format _ ⟨1, 1, [0]⟩ "photo.jpg" rfl

/-- Claim C4: a fetched selection of length zero produces exactly the
empty-or-unsupported message followed by the main-loop quit: no dialog, no
target listing, and the stdout of the whole callback is that one line. -/
theorem claim_C4_zero_length_is_no_content (env : Env) (sd : SelectionData)
    (h : sd.length = 0) :
    on_clipboard_received_content env sd = [Event.msgUnsupported, Event.mainQuit] ∧
      List.countP is_dialog (on_clipboard_received_content env sd) = 0 ∧
      (∀ s, Event.msgTargetName s ∉ on_clipboard_received_content env sd) ∧
      stdoutOf (on_clipboard_received_content env sd) =
        "Clipboard is empty or contains an unsupported format.\n" := by
  have htr : on_clipboard_received_content env sd =
      [Event.msgUnsupported, Event.mainQuit] := by
    unfold on_clipboard_received_content
    rw [if_pos h]
  refine ⟨htr, ?_, ?_, ?_⟩
  · rw [htr]; rfl
  · intro s
    rw [htr]
    simp
  · rw [htr]
    simp [stdoutOf, event_stdout, str_append_empty]

/-- Claim C4 witness: a zero-length selection on a concrete environment. -/
theorem claim_C4_zero_length_is_no_content_witness :
    on_clipboard_received_content
        { targets := ["text/plain"],
          content := fun _ => { length := 0, pixbuf := none, text := none },
          textDialog := DialogResult.cancel,
          imageDialog := DialogResult.cancel,
          g_file_set_contents := fun _ _ => none,
          gdk_pixbuf_save := fun _ _ _ => none }
        { length := 0, pixbuf := none, text := none } =
      [Event.msgUnsupported, Event.mainQuit] :=
  (claim_C4_zero_length_is_no_content _ _ rfl).1

/-- Claim C6: dismissing either dialog without acceptance writes nothing,
prints the matching canceled line and quits the main loop. -/
theorem claim_C6_cancel_no_write (env : Env) (text : String) (pb : Pixbuf)
    (ht : env.textDialog = DialogResult.cancel)
    (hi : env.imageDialog = DialogResult.cancel) :
    save_text env text =
        [Event.showDialog DialogKind.text, Event.msgCanceled DialogKind.text,
         Event.mainQuit] ∧
      save_image env pb =
        [Event.showDialog DialogKind.image, Event.msgCanceled DialogKind.image,
         Event.mainQuit] ∧
      write_attempts (save_text env text) = [] ∧
      pixbuf_save_calls (save_image env pb) = [] ∧
      stdoutOf (save_text env text) = "Text save canceled.\n" ∧
      stdoutOf (save_image env pb) = "Image save canceled.\n" := by
  have h1 : save_text env text =
      [Event.showDialog DialogKind.text, Event.msgCanceled DialogKind.text,
       Event.mainQuit] := by
    unfold save_text
    rw [ht]
    rfl
  have h2 : save_image env pb =
      [Event.showDialog DialogKind.image, Event.msgCanceled DialogKind.image,
       Event.mainQuit] := by
    unfold save_image
    rw [hi]
    rfl
  refine ⟨h1, h2, ?_, ?_, ?_, ?_⟩
  · rw [h1]; rfl
  · rw [h2]; rfl
  · rw [h1]; simp [stdoutOf, event_stdout, str_empty_append, str_append_empty]
  · rw [h2]; simp [stdoutOf, event_stdout, str_empty_append, str_append_empty]

/-- Claim C6 witness: both dialogs canceled on a concrete environment. -/
theorem claim_C6_cancel_no_write_witness :
    save_text
        { targets := ["text/plain"],
          content := fun _ => { length := 2, pixbuf := none, text := some "hi" },
          textDialog := DialogResult.cancel,
          imageDialog := DialogResult.cancel,
          g_file_set_contents := fun _ _ => none,
          gdk_pixbuf_save := fun _ _ _ => none }
        "hi" =
      [Event.showDialog DialogKind.text, Event.msgCanceled DialogKind.text,
       Event.mainQuit] ∧
    save_image
        { targets := ["text/plain"],
          content := fun _ => { length := 2, pixbuf := none, text := some "hi" },
          textDialog := DialogResult.cancel,
          imageDialog := DialogResult.cancel,
          g_file_set_contents := fun _ _ => none,
          gdk_pixbuf_save := fun _ _ _ => none }
        ⟨1, 1, [0]⟩ =
      [Event.showDialog DialogKind.image, Event.msgCanceled DialogKind.image,
       Event.mainQuit] := by
  refine ⟨(claim_C6_cancel_no_write _ "hi" ⟨1, 1, [0]⟩ rfl rfl).1, ?_⟩
  exact (claim_C6_cancel_no_write _ "hi" ⟨1, 1, [0]⟩ rfl rfl).2.1

/-- Claim C7: a failed g_file_set_contents or gdk_pixbuf_save leads to one
error line on standard error carrying the underlying error message, no
successful write, no second write attempt, and an immediate main-loop
quit. -/
theorem claim_C7_failure_reported (env : Env) (text p q e1 e2 : String)
    (pb : Pixbuf)
    (ht : env.textDialog = DialogResult.accept (some p))
    (hw : env.g_file_set_contents p text = some e1)
    (hi : env.imageDialog = DialogResult.accept (some q))
    (hp : env.gdk_pixbuf_save pb q (image_save_format q) = some e2) :
    save_text env text =
        [Event.showDialog DialogKind.text, Event.writeFileCall p text false,
         Event.msgSaveError DialogKind.text e1, Event.mainQuit] ∧
      stderrOf (save_text env text) = "Error saving text file: " ++ e1 ++ "\n" ∧
      writes (save_text env text) = [] ∧
      write_attempts (save_text env text) = [(p, text)] ∧
      save_image env pb =
        [Event.showDialog DialogKind.image,
         Event.pixbufSaveCall q (image_save_format q) false,
         Event.msgSaveError DialogKind.image e2, Event.mainQuit] ∧
      stderrOf (save_image env pb) = "Error saving image: " ++ e2 ++ "\n" ∧
      pixbuf_save_calls (save_image env pb) = [(q, image_save_format q)] ∧
      writes (save_image env pb) = [] := by
  have h1 : save_text env text =
      [Event.showDialog DialogKind.text, Event.writeFileCall p text false,
       Event.msgSaveError DialogKind.text e1, Event.mainQuit] := by
    unfold save_text
    simp only [ht, hw]
    rfl
  have h2 : save_image env pb =
      [Event.showDialog DialogKind.image,
       Event.pixbufSaveCall q (image_save_format q) false,
       Event.msgSaveError DialogKind.image e2, Event.mainQuit] := by
    unfold save_image
    simp only [hi, hp]
    rfl
  refine ⟨h1, ?_, ?_, ?_, h2, ?_, ?_, ?_⟩
  · rw [h1]
    simp [stderrOf, event_stderr, str_empty_append, str_append_empty]
  · rw [h1]; rfl
  · rw [h1]; rfl
  · rw [h2]
    simp [stderrOf, event_stderr, str_empty_append, str_append_empty]
  · rw [h2]; rfl
  · rw [h2]; rfl

/-- Claim C7 witness: a text write failing with "disk full" and an image
encode failing with "encode failed" on a concrete environment. -/
theorem claim_C7_failure_reported_witness :
    stderrOf
        (save_text
          { targets := ["text/plain"],
            content := fun _ => { length := 1, pixbuf := none, text := some "x" },
            textDialog := DialogResult.accept (some "t.txt"),
            imageDialog := DialogResult.accept (some "i.png"),
            g_file_set_contents := fun _ _ => some "disk full",
            gdk_pixbuf_save := fun _ _ _ => some "encode failed" }
          "x") =
      "Error saving text file: " ++ "disk full" ++ "\n" ∧
    stderrOf
        (save_image
          { targets := ["text/plain"],
            content := fun _ => { length := 1, pixbuf := none, text := some "x" },
            textDialog := DialogResult.accept (some "t.txt"),
            imageDialog := DialogResult.accept (some "i.png"),
            g_file_set_contents := fun _ _ => some "disk full",
            gdk_pixbuf_save := fun _ _ _ => some "encode failed" }
          ⟨1, 1, [0]⟩) =
      "Error saving image: " ++ "encode failed" ++ "\n" := by
  refine
    ⟨(claim_C7_failure_reported _ "x" "t.txt" "i.png" "disk full" "encode failed"
        ⟨1, 1, [0]⟩ rfl rfl rfl rfl).2.1, ?_⟩
  exact
    (claim_C7_failure_reported _ "x" "t.txt" "i.png" "disk full" "encode failed"
      ⟨1, 1, [0]⟩ rfl rfl rfl rfl).2.2.2.2.2.1

/-- Claim C10: a dialog accepted with a null filename writes nothing,
prints nothing on either stream, and still quits the main loop. -/
theorem claim_C10_null_filename_silent (env : Env) (text : String) (pb : Pixbuf)
    (ht : env.textDialog = DialogResult.accept none)
    (hi : env.imageDialog = DialogResult.accept none) :
    save_text env text = [Event.showDialog DialogKind.text, Event.mainQuit] ∧
      save_image env pb = [Event.showDialog DialogKind.image, Event.mainQuit] ∧
      stdoutOf (save_text env text) = "" ∧
      stderrOf (save_text env text) = "" ∧
      stdoutOf (save_image env pb) = "" ∧
      stderrOf (save_image env pb) = "" ∧
      write_attempts (save_text env text) = [] ∧
      pixbuf_save_calls (save_image env pb) = [] := by
  have h1 : save_text env text =
      [Event.showDialog DialogKind.text, Event.mainQuit] := by
    unfold save_text
    rw [ht]
    rfl
  have h2 : save_image env pb =
      [Event.showDialog DialogKind.image, Event.mainQuit] := by
    unfold save_image
    rw [hi]
    rfl
  refine ⟨h1, h2, ?_, ?_, ?_, ?_, ?_, ?_⟩ <;> first
    | (rw [h1]; rfl)
    | (rw [h2]; rfl)

/-- Claim C10 witness: both dialogs accepted with a null filename on a
concrete environment. -/
theorem claim_C10_null_filename_silent_witness :
    save_text
        { targets := ["text/plain"],
          content := fun _ => { length := 1, pixbuf := none, text := some "x" },
          textDialog := DialogResult.accept none,
          imageDialog := DialogResult.accept none,
          g_file_set_contents := fun _ _ => none,
          gdk_pixbuf_save := fun _ _ _ => none }
        "x" =
      [Event.showDialog DialogKind.text, Event.mainQuit] ∧
    save_image
        { targets := ["text/plain"],
          content := fun _ => { length := 1, pixbuf := none, text := some "x" },
          textDialog := DialogResult.accept none,
          imageDialog := DialogResult.accept none,
          g_file_set_contents := fun _ _ => none,
          gdk_pixbuf_save := fun _ _ _ => none }
        ⟨1, 1, [0]⟩ =
      [Event.showDialog DialogKind.image, Event.mainQuit] := by
  refine ⟨(claim_C10_null_filename_silent _ "x" ⟨1, 1, [0]⟩ rfl rfl).1, ?_⟩
  exact (claim_C10_null_filename_silent _ "x" ⟨1, 1, [0]⟩ rfl rfl).2.1

/-- Every target name is printed by the listing loop, from any starting
index. -/
theorem mem_print_found_targets (ts : List String) :
    ∀ i t, t ∈ ts → Event.msgTargetName t ∈ print_found_targets ts i := by
  induction ts with
  | nil =>
      intro i t h
      cases h
  | cons a ts ih =>
      intro i t h
      rcases List.mem_cons.mp h with rfl | h
      · exact List.mem_append_right _ (List.mem_cons_self _ _)
      · exact List.mem_append_right _ (List.mem_cons_of_mem _ (ih (i + 1) t h))

/-- The listing loop only emits separators and target names. -/
theorem print_found_targets_shape (ts : List String) :
    ∀ i e, e ∈ print_found_targets ts i →
      e = Event.msgSeparator ∨ ∃ s, e = Event.msgTargetName s := by
  induction ts with
  | nil =>
      intro i e h
      cases h
  | cons a ts ih =>
      intro i e h
      rcases List.mem_append.mp h with h | h
      · left
        by_cases hi : 0 < i
        · rw [if_pos hi] at h
          simpa using h
        · rw [if_neg hi] at h
          cases h
      · rcases List.mem_cons.mp h with rfl | h
        · right
          exact ⟨a, rfl⟩
        · exact ih (i + 1) e h

/-- A predicate false on separators and target names counts nothing in the
listing loop. -/
theorem countP_print_found_targets (p : Event → Bool)
    (h1 : p Event.msgSeparator = false)
    (h2 : ∀ s, p (Event.msgTargetName s) = false) (ts : List String) (i : Nat) :
    List.countP p (print_found_targets ts i) = 0 := by
  rw [List.countP_eq_zero]
  intro e he
  rcases print_found_targets_shape ts i e he with rfl | ⟨s, rfl⟩
  · simp [h1]
  · simp [h2]

/-- A filterMap that drops separators and target names drops the whole
listing loop. -/
theorem filterMap_print_found_targets {α : Type} (f : Event → Option α)
    (h1 : f Event.msgSeparator = none)
    (h2 : ∀ s, f (Event.msgTargetName s) = none) (ts : List String) (i : Nat) :
    List.filterMap f (print_found_targets ts i) = [] := by
  rw [List.filterMap_eq_nil_iff]
  intro e he
  rcases print_found_targets_shape ts i e he with rfl | ⟨s, rfl⟩
  · exact h1
  · exact h2 s

/-- With no image target, the first loop finds nothing. -/
theorem find_image_target_none (ts : List String)
    (h : ∀ t ∈ ts, g_str_starts_with t "image/" = false) :
    find_image_target ts = none := by
  rw [find_image_target_eq_find, List.find?_eq_none]
  intro t ht
  simp [h t ht]

/-- With no text/plain or UTF8_STRING target, the second loop finds
nothing. -/
theorem find_text_target_none (ts : List String)
    (h : ∀ t ∈ ts, t ≠ "text/plain" ∧ t ≠ "UTF8_STRING") :
    find_text_target ts = none := by
  rw [find_text_target_eq_find, List.find?_eq_none]
  intro t ht
  simp [(h t ht).1, (h t ht).2]

/-- Claim C5: when the target list offers neither an image/ identifier nor
text/plain nor UTF8_STRING, every offered identifier is printed, no dialog
is shown, no write and no encode is attempted, and the run quits the main
loop exactly once, as its last act. -/
theorem claim_C5_no_usable_target_reports_all (env : Env)
    (h : ∀ t ∈ env.targets,
        g_str_starts_with t "image/" = false ∧
          t ≠ "text/plain" ∧ t ≠ "UTF8_STRING") :
    (∀ t ∈ env.targets, Event.msgTargetName t ∈ (run env).trace) ∧
      List.countP is_dialog (run env).trace = 0 ∧
      write_attempts (run env).trace = [] ∧
      pixbuf_save_calls (run env).trace = [] ∧
      List.countP is_quit (run env).trace = 1 ∧
      ∃ pre, (run env).trace = pre ++ [Event.mainQuit] := by
  have hsel : select_target env.targets = none := by
    unfold select_target
    rw [find_image_target_none env.targets fun t ht => (h t ht).1,
      find_text_target_none env.targets fun t ht => (h t ht).2]
  have htr : (run env).trace =
      [Event.msgUnsupported, Event.msgFoundTargetsHeader] ++
        print_found_targets env.targets 0 ++ [Event.msgNewline, Event.mainQuit] := by
    unfold run on_clipboard_received_targets
    rw [hsel]
  refine ⟨?_, ?_, ?_, ?_, ?_, ?_⟩
  · intro t ht
    rw [htr]
    exact List.mem_append_left _
      (List.mem_append_right _ (mem_print_found_targets env.targets 0 t ht))
  · rw [htr]
    simp [List.countP_append,
      countP_print_found_targets is_dialog rfl (fun _ => rfl),
      List.countP_cons, is_dialog]
  · rw [htr]
    unfold write_attempts
    simp only [List.filterMap_append]
    rw [filterMap_print_found_targets _ rfl (fun _ => rfl)]
    rfl
  · rw [htr]
    unfold pixbuf_save_calls
    simp only [List.filterMap_append]
    rw [filterMap_print_found_targets _ rfl (fun _ => rfl)]
    rfl
  · rw [htr]
    simp [List.countP_append,
      countP_print_found_targets is_quit rfl (fun _ => rfl),
      List.countP_cons, is_quit]
  · exact ⟨[Event.msgUnsupported, Event.msgFoundTargetsHeader] ++
      print_found_targets env.targets 0 ++ [Event.msgNewline], by
        rw [htr]; simp⟩

/-- Claim C5 witness: a concrete target list with neither an image nor a
recognized text identifier. -/
theorem claim_C5_no_usable_target_reports_all_witness :
    Event.msgTargetName "text/html" ∈
        (run
          { targets := ["text/html", "text/uri-list"],
            content := fun _ => { length := 0, pixbuf := none, text := none },
            textDialog := DialogResult.cancel,
            imageDialog := DialogResult.cancel,
            g_file_set_contents := fun _ _ => none,
            gdk_pixbuf_save := fun _ _ _ => none }).trace ∧
      List.countP is_dialog
          (run
            { targets := ["text/html", "text/uri-list"],
              content := fun _ => { length := 0, pixbuf := none, text := none },
              textDialog := DialogResult.cancel,
              imageDialog := DialogResult.cancel,
              g_file_set_contents := fun _ _ => none,
              gdk_pixbuf_save := fun _ _ _ => none }).trace = 0 := by
  refine ⟨(claim_C5_no_usable_target_reports_all _ (by decide)).1 "text/html"
    (by decide), ?_⟩
  exact (claim_C5_no_usable_target_reports_all _ (by decide)).2.1

/-- The single-terminal-outcome invariant of one trace: at most one save
dialog, exactly one main-loop quit and it is the last event, exactly one
terminal outcome (a save dialog or the empty-or-unsupported determination),
and at most one terminal outcome message. -/
def terminal_outcome_ok (tr : List Event) : Prop :=
  List.countP is_dialog tr ≤ 1 ∧
    List.countP is_quit tr = 1 ∧
    (∃ pre, tr = pre ++ [Event.mainQuit]) ∧
    List.countP is_dialog tr + List.countP is_unsupported_report tr = 1 ∧
    List.countP is_terminal_msg tr ≤ 1

/-- Prepending an event that is neither a dialog, a quit, nor a terminal
message preserves the invariant. -/
theorem terminal_outcome_ok_cons (e : Event) (tr : List Event)
    (h : terminal_outcome_ok tr)
    (h1 : is_dialog e = false) (h2 : is_quit e = false)
    (h3 : is_unsupported_report e = false) (h4 : is_terminal_msg e = false) :
    terminal_outcome_ok (e :: tr) := by
  obtain ⟨c1, c2, ⟨pre, hpre⟩, c3, c4⟩ := h
  refine ⟨?_, ?_, ⟨e :: pre, by rw [hpre]; rfl⟩, ?_, ?_⟩ <;>
    simp [List.countP_cons, h1, h2, h3, h4, c1, c2, c3, c4]

/-- The save_text trace satisfies the invariant, with exactly one dialog. -/
theorem save_text_outcome (env : Env) (text : String) :
    terminal_outcome_ok (save_text env text) := by
  unfold terminal_outcome_ok
  rcases ht : env.textDialog with f | _
  case cancel =>
    have htr : save_text env text =
        [Event.showDialog DialogKind.text, Event.msgCanceled DialogKind.text,
         Event.mainQuit] := by
      unfold save_text
      rw [ht]
      rfl
    rw [htr]
    refine ⟨?_, ?_,
      ⟨[Event.showDialog DialogKind.text, Event.msgCanceled DialogKind.text],
        rfl⟩, ?_, ?_⟩ <;>
      simp [List.countP_cons, List.countP_nil, is_dialog, is_quit,
        is_unsupported_report, is_terminal_msg]
  case accept =>
    rcases f with _ | fn
    · have htr : save_text env text =
          [Event.showDialog DialogKind.text, Event.mainQuit] := by
        unfold save_text
        rw [ht]
        rfl
      rw [htr]
      refine ⟨?_, ?_, ⟨[Event.showDialog DialogKind.text], rfl⟩, ?_, ?_⟩ <;>
        simp [List.countP_cons, List.countP_nil, is_dialog, is_quit,
          is_unsupported_report, is_terminal_msg]
    · rcases hw : env.g_file_set_contents fn text with _ | err
      · have htr : save_text env text =
            [Event.showDialog DialogKind.text, Event.writeFileCall fn text true,
             Event.msgSaved DialogKind.text fn, Event.mainQuit] := by
          unfold save_text
          simp only [ht, hw]
          rfl
        rw [htr]
        refine ⟨?_, ?_,
          ⟨[Event.showDialog DialogKind.text, Event.writeFileCall fn text true,
            Event.msgSaved DialogKind.text fn], rfl⟩, ?_, ?_⟩ <;>
          simp [List.countP_cons, List.countP_nil, is_dialog, is_quit,
            is_unsupported_report, is_terminal_msg]
      · have htr : save_text env text =
            [Event.showDialog DialogKind.text, Event.writeFileCall fn text false,
             Event.msgSaveError DialogKind.text err, Event.mainQuit] := by
          unfold save_text
          simp only [ht, hw]
          rfl
        rw [htr]
        refine ⟨?_, ?_,
          ⟨[Event.showDialog DialogKind.text, Event.writeFileCall fn text false,
            Event.msgSaveError DialogKind.text err], rfl⟩, ?_, ?_⟩ <;>
          simp [List.countP_cons, List.countP_nil, is_dialog, is_quit,
            is_unsupported_report, is_terminal_msg]

/-- The save_image trace satisfies the invariant, with exactly one
dialog. -/
theorem save_image_outcome (env : Env) (pb : Pixbuf) :
    terminal_outcome_ok (save_image env pb) := by
  unfold terminal_outcome_ok
  rcases hi : env.imageDialog with f | _
  case cancel =>
    have htr : save_image env pb =
        [Event.showDialog DialogKind.image, Event.msgCanceled DialogKind.image,
         Event.mainQuit] := by
      unfold save_image
      rw [hi]
      rfl
    rw [htr]
    refine ⟨?_, ?_,
      ⟨[Event.showDialog DialogKind.image, Event.msgCanceled DialogKind.image],
        rfl⟩, ?_, ?_⟩ <;>
      simp [List.countP_cons, List.countP_nil, is_dialog, is_quit,
        is_unsupported_report, is_terminal_msg]
  case accept =>
    rcases f with _ | fn
    · have htr : save_image env pb =
          [Event.showDialog DialogKind.image, Event.mainQuit] := by
        unfold save_image
        rw [hi]
        rfl
      rw [htr]
      refine ⟨?_, ?_, ⟨[Event.showDialog DialogKind.image], rfl⟩, ?_, ?_⟩ <;>
        simp [List.countP_cons, List.countP_nil, is_dialog, is_quit,
          is_unsupported_report, is_terminal_msg]
    · rcases hp : env.gdk_pixbuf_save pb fn (image_save_format fn) with _ | err
      · have htr : save_image env pb =
            [Event.showDialog DialogKind.image,
             Event.pixbufSaveCall fn (image_save_format fn) true,
             Event.msgSaved DialogKind.image fn, Event.mainQuit] := by
          unfold save_image
          simp only [hi, hp]
          rfl
        rw [htr]
        refine ⟨?_, ?_,
          ⟨[Event.showDialog DialogKind.image,
            Event.pixbufSaveCall fn (image_save_format fn) true,
            Event.msgSaved DialogKind.image fn], rfl⟩, ?_, ?_⟩ <;>
          simp [List.countP_cons, List.countP_nil, is_dialog, is_quit,
            is_unsupported_report, is_terminal_msg]
      · have htr : save_image env pb =
            [Event.showDialog DialogKind.image,
             Event.pixbufSaveCall fn (image_save_format fn) false,
             Event.msgSaveError DialogKind.image err, Event.mainQuit] := by
          unfold save_image
          simp only [hi, hp]
          rfl
        rw [htr]
        refine ⟨?_, ?_,
          ⟨[Event.showDialog DialogKind.image,
            Event.pixbufSaveCall fn (image_save_format fn) false,
            Event.msgSaveError DialogKind.image err], rfl⟩, ?_, ?_⟩ <;>
          simp [List.countP_cons, List.countP_nil, is_dialog, is_quit,
            is_unsupported_report, is_terminal_msg]

/-- The content callback trace satisfies the invariant. -/
theorem on_clipboard_received_content_outcome (env : Env)
    (sd : SelectionData) :
    terminal_outcome_ok (on_clipboard_received_content env sd) := by
  unfold on_clipboard_received_content
  by_cases h0 : sd.length = 0
  · rw [if_pos h0]
    unfold terminal_outcome_ok
    refine ⟨?_, ?_, ⟨[Event.msgUnsupported], rfl⟩, ?_, ?_⟩ <;>
      simp [List.countP_cons, List.countP_nil, is_dialog, is_quit,
        is_unsupported_report, is_terminal_msg]
  · rw [if_neg h0]
    rcases sd.pixbuf with _ | pb
    · rcases sd.text with _ | t
      · unfold terminal_outcome_ok
        refine ⟨?_, ?_, ⟨[Event.msgUnsupported], rfl⟩, ?_, ?_⟩ <;>
          simp [List.countP_cons, List.countP_nil, is_dialog, is_quit,
            is_unsupported_report, is_terminal_msg]
      · exact terminal_outcome_ok_cons _ _ (save_text_outcome env t)
          rfl rfl rfl rfl
    · exact terminal_outcome_ok_cons _ _ (save_image_outcome env pb)
        rfl rfl rfl rfl

/-- Claim C8: on every run at most one save dialog is shown; the main loop
is quit exactly once and that quit is the last event; there is exactly one
terminal outcome, a save attempt (a dialog shown) or the determination that
no usable content exists; and at most one terminal outcome message is
printed. -/
theorem claim_C8_single_terminal_outcome (env : Env) :
    terminal_outcome_ok (run env).trace := by
  show terminal_outcome_ok (on_clipboard_received_targets env)
  unfold on_clipboard_received_targets
  rcases hsel : select_target env.targets with _ | t
  · have hquit := countP_print_found_targets is_quit rfl (fun _ => rfl)
      env.targets 0
    have hdialog := countP_print_found_targets is_dialog rfl (fun _ => rfl)
      env.targets 0
    have hunsup := countP_print_found_targets is_unsupported_report rfl
      (fun _ => rfl) env.targets 0
    have hterm := countP_print_found_targets is_terminal_msg rfl (fun _ => rfl)
      env.targets 0
    refine ⟨?_, ?_,
      ⟨[Event.msgUnsupported, Event.msgFoundTargetsHeader] ++
        print_found_targets env.targets 0 ++ [Event.msgNewline], by simp⟩,
      ?_, ?_⟩ <;>
      simp [List.countP_append, List.countP_cons, hquit, hdialog, hunsup,
        hterm, is_dialog, is_quit, is_unsupported_report, is_terminal_msg]
  · exact on_clipboard_received_content_outcome env (env.content t)
